import Mathlib

/-!
Verification development for the cascade repository: a shallow embedding of
the Prior family (`cascade/model/priors.py`), the covariate column
(`cascade/model/covariates.py`), the Session data-normalization and
command-check logic (`cascade/model/session.py`), and the AgeTimeGrid
(modelled from the specification where the source file is absent),
together with theorems settling the frozen claims about them.
-/

namespace Cascade

/-- Extended rationals standing in for Python floats: the priors use
`float("-inf")` and `float("inf")` as default bounds, so the numeric domain
is rationals extended with two infinities (no NaN arises in the modelled
code paths). -/
inductive XF where
  | negInf
  | val (q : ℚ)
  | posInf
deriving DecidableEq, Repr

/-- Python `a <= b` on the modelled float domain. -/
def XF.leb : XF → XF → Bool
  | .negInf, _ => true
  | _, .posInf => true
  | .val a, .val b => a ≤ b
  | .posInf, _ => false
  | .val _, .negInf => false

/-- Python `a < b` on the modelled float domain. -/
def XF.ltb (a b : XF) : Bool := !(XF.leb b a)

/-- Substring test on character lists; `needle` empty always matches,
mirroring Python `in` on strings. -/
def listContainsSub (hay needle : List Char) : Bool :=
  match hay with
  | [] => needle.isEmpty
  | c :: t => needle.isPrefixOf (c :: t) || listContainsSub t needle

/-- Python `needle in hay` for strings (substring containment). -/
def strIn (needle hay : String) : Bool := listContainsSub hay.toList needle.toList

/-- Whether an `Except` computation succeeded. -/
def exceptOk {ε α : Type} : Except ε α → Bool
  | .ok _ => true
  | .error _ => false

/-! ## Prior family, from `cascade/model/priors.py`

Each concrete prior class becomes a constructor carrying exactly the fields
its `__init__` stores, plus the optional name stored by `_Prior.__init__`.
`LaplacePrior` subclasses `GaussianPrior` changing only the density tag,
and `LogLaplacePrior` likewise subclasses `LogGaussianPrior`. -/

inductive Prior where
  | uniform (lower upper mean : XF) (name : Option String)
  | gaussian (lower upper mean std : XF) (name : Option String)
  | laplace (lower upper mean std : XF) (name : Option String)
  | students (lower upper mean std nu : XF) (name : Option String)
  | logGaussian (lower upper mean std eta : XF) (name : Option String)
  | logLaplace (lower upper mean std eta : XF) (name : Option String)
  | logStudents (lower upper mean std nu eta : XF) (name : Option String)
deriving DecidableEq, Repr

/-- The `name` attribute set by `_Prior.__init__`. -/
def Prior.name : Prior → Option String
  | .uniform _ _ _ n => n
  | .gaussian _ _ _ _ n => n
  | .laplace _ _ _ _ n => n
  | .students _ _ _ _ _ n => n
  | .logGaussian _ _ _ _ _ n => n
  | .logLaplace _ _ _ _ _ n => n
  | .logStudents _ _ _ _ _ _ n => n

/-- The `parameters()` dict of each concrete class, as an association list
in the literal order the Python dict literals build it. Every concrete
class overrides `parameters()` directly, so the `density` tag of the base
class never appears in the dict. -/
def Prior.parameters : Prior → List (String × XF)
  | .uniform l u m _ => [("lower", l), ("upper", u), ("mean", m)]
  | .gaussian l u m s _ => [("lower", l), ("upper", u), ("mean", m), ("std", s)]
  | .laplace l u m s _ => [("lower", l), ("upper", u), ("mean", m), ("std", s)]
  | .students l u m s nu _ =>
      [("lower", l), ("upper", u), ("mean", m), ("std", s), ("nu", nu)]
  | .logGaussian l u m s e _ =>
      [("lower", l), ("upper", u), ("mean", m), ("std", s), ("eta", e)]
  | .logLaplace l u m s e _ =>
      [("lower", l), ("upper", u), ("mean", m), ("std", s), ("eta", e)]
  | .logStudents l u m s nu e _ =>
      [("lower", l), ("upper", u), ("mean", m), ("std", s), ("nu", nu), ("eta", e)]

/-- The density tag of each class, for stating claims about kinds. -/
def Prior.density : Prior → String
  | .uniform .. => "uniform"
  | .gaussian .. => "gaussian"
  | .laplace .. => "laplace"
  | .students .. => "students"
  | .logGaussian .. => "log_gaussian"
  | .logLaplace .. => "log_laplace"
  | .logStudents .. => "log_students"

/-- Python dict equality on association lists: every entry of each is found
with the same value in the other. -/
def dictEq (a b : List (String × XF)) : Bool :=
  a.all (fun p => b.lookup p.1 == some p.2) && b.all (fun p => a.lookup p.1 == some p.2)

/-- `_Prior.__eq__`: `isinstance` (always true in the closed type), equal
names, and equal `parameters()` dicts. -/
def priorEq (p q : Prior) : Bool :=
  p.name == q.name && dictEq p.parameters q.parameters

/-- `_Prior.__hash__` hashes `frozenset(self.parameters().items())`; the
frozenset is modelled as the finite set of items, so two priors receive
equal Python hashes whenever their `hashKey`s are equal. -/
def Prior.hashKey (p : Prior) : Finset (String × XF) := p.parameters.toFinset

/-- `_validate_bounds`: fails unless `lower <= mean <= upper`. -/
def validate_bounds (lower mean upper : XF) : Except String Unit :=
  if !(lower.leb mean && mean.leb upper) then .error "Bounds are inconsistent"
  else .ok ()

/-- `_validate_standard_deviation`: fails when negative. -/
def validate_standard_deviation (standard_deviation : XF) : Except String Unit :=
  if standard_deviation.ltb (.val 0) then .error "Standard deviation must be positive"
  else .ok ()

/-- `_validate_nu`: fails when negative. -/
def validate_nu (nu : XF) : Except String Unit :=
  if nu.ltb (.val 0) then .error "Nu must be positive" else .ok ()

/-- `UniformPrior.__init__(mean, lower, upper, name)`. -/
def UniformPrior_init (mean : XF) (lower : XF := .negInf) (upper : XF := .posInf)
    (name : Option String := none) : Except String Prior :=
  match validate_bounds lower mean upper with
  | .error e => .error e
  | .ok _ => .ok (.uniform lower upper mean name)

/-- `GaussianPrior.__init__(mean, standard_deviation, lower, upper, name)`. -/
def GaussianPrior_init (mean standard_deviation : XF) (lower : XF := .negInf)
    (upper : XF := .posInf) (name : Option String := none) : Except String Prior :=
  match validate_bounds lower mean upper with
  | .error e => .error e
  | .ok _ =>
    match validate_standard_deviation standard_deviation with
    | .error e => .error e
    | .ok _ => .ok (.gaussian lower upper mean standard_deviation name)

/-- `LaplacePrior` inherits `GaussianPrior.__init__`, differing only in tag. -/
def LaplacePrior_init (mean standard_deviation : XF) (lower : XF := .negInf)
    (upper : XF := .posInf) (name : Option String := none) : Except String Prior :=
  match validate_bounds lower mean upper with
  | .error e => .error e
  | .ok _ =>
    match validate_standard_deviation standard_deviation with
    | .error e => .error e
    | .ok _ => .ok (.laplace lower upper mean standard_deviation name)

/-- `StudentsTPrior.__init__(mean, standard_deviation, nu, lower, upper, name)`. -/
def StudentsTPrior_init (mean standard_deviation nu : XF) (lower : XF := .negInf)
    (upper : XF := .posInf) (name : Option String := none) : Except String Prior :=
  match validate_bounds lower mean upper with
  | .error e => .error e
  | .ok _ =>
    match validate_standard_deviation standard_deviation with
    | .error e => .error e
    | .ok _ =>
      match validate_nu nu with
      | .error e => .error e
      | .ok _ => .ok (.students lower upper mean standard_deviation nu name)

/-- `LogGaussianPrior.__init__(mean, standard_deviation, eta, lower, upper, name)`;
note `eta` is stored without validation. -/
def LogGaussianPrior_init (mean standard_deviation eta : XF) (lower : XF := .negInf)
    (upper : XF := .posInf) (name : Option String := none) : Except String Prior :=
  match validate_bounds lower mean upper with
  | .error e => .error e
  | .ok _ =>
    match validate_standard_deviation standard_deviation with
    | .error e => .error e
    | .ok _ => .ok (.logGaussian lower upper mean standard_deviation eta name)

/-- `LogLaplacePrior` inherits `LogGaussianPrior.__init__`. -/
def LogLaplacePrior_init (mean standard_deviation eta : XF) (lower : XF := .negInf)
    (upper : XF := .posInf) (name : Option String := none) : Except String Prior :=
  match validate_bounds lower mean upper with
  | .error e => .error e
  | .ok _ =>
    match validate_standard_deviation standard_deviation with
    | .error e => .error e
    | .ok _ => .ok (.logLaplace lower upper mean standard_deviation eta name)

/-- `LogStudentsTPrior.__init__(mean, standard_deviation, nu, eta, lower, upper, name)`. -/
def LogStudentsTPrior_init (mean standard_deviation nu eta : XF) (lower : XF := .negInf)
    (upper : XF := .posInf) (name : Option String := none) : Except String Prior :=
  match validate_bounds lower mean upper with
  | .error e => .error e
  | .ok _ =>
    match validate_standard_deviation standard_deviation with
    | .error e => .error e
    | .ok _ =>
      match validate_nu nu with
      | .error e => .error e
      | .ok _ => .ok (.logStudents lower upper mean standard_deviation nu eta name)

/-! ## CovariateColumn, from `cascade/model/covariates.py`

The covariate column's numeric attributes are Python floats; the modelled
code paths use only ordinary numbers, embedded as rationals. -/

structure CovariateColumn where
  name : String
  reference : Option ℚ
  max_difference : Option ℚ
deriving DecidableEq, Repr

/-- The `max_difference` property setter: `None` clears the attribute; a
number is stored after `float` conversion when strictly positive, and a
non-positive number raises `ValueError`, in which case the attribute keeps
its previous value (the raise happens before the assignment). The result
pairs the object state after the call with the raised message, if any. -/
def set_max_difference (c : CovariateColumn) (difference : Option ℚ) :
    CovariateColumn × Option String :=
  match difference with
  | none => ({ c with max_difference := none }, none)
  | some diff =>
    if diff ≤ 0 then (c, some "max difference must be positive")
    else ({ c with max_difference := some diff }, none)

/-! ## Session command completion check, from `Session._check_dismod_command`
and the tail of `Session._run_dismod`. -/

/-- Non-raising outcomes of `_check_dismod_command`: plain success, or the
maximum-iterations warning (logged, not raised). -/
inductive CheckOutcome where
  | success
  | warnMaxIter
deriving DecidableEq, Repr

def oom_sentinel : String := "std:bad_alloc"

def max_iter_sentinel : String := "Maximum Number of Iterations Exceeded"

/-- `len(log) == 0 or f"end {command}" not in log.message.iloc[-1]`: the
persisted log is empty, or its final message lacks the terminal success
line for this command. -/
def logFailed (command : String) (log : List String) : Bool :=
  log.isEmpty || !(strIn ("end " ++ command) (log.getLast?.getD ""))

/-- `Session._check_dismod_command`: raises on the out-of-memory sentinel
or a missing success line with no recognized benign marker, warns on the
maximum-iterations sentinel, succeeds when the final log message contains
`end <command>`. -/
def check_dismod_command (command stdout stderr : String) (log : List String) :
    Except String CheckOutcome :=
  if logFailed command log then
    if strIn oom_sentinel stdout || strIn oom_sentinel stderr then
      .error "Dismod-AT ran out of memory"
    else if strIn max_iter_sentinel stdout || strIn max_iter_sentinel stderr then
      .ok .warnMaxIter
    else
      .error ("Dismod-AT failed to complete '" ++ command ++ "' command")
  else .ok .success

/-- The tail of `Session._run_dismod` after the external process returns:
the completion check runs first, then `assert return_code == 0`, then the
captured output is the result. -/
def run_dismod_completion (command stdout stderr : String) (log : List String)
    (return_code : Int) : Except String (String × String) :=
  match check_dismod_command command stdout stderr log with
  | .error e => .error e
  | .ok _ =>
    if return_code = 0 then .ok (stdout, stderr)
    else .error ("return code is " ++ toString return_code)

/-! ## Data tables and normalization, from `Session._point_age_time_to_interval`
and `Session._amend_data_input`.

A pandas DataFrame is embedded as a row count plus named columns of cell
values; cell values are numbers, strings, or the NaN marker (pandas null).
The index is the default positional range index, so `index.astype(str)`
is the list of row positions rendered as strings. -/

inductive Val where
  | num (q : ℚ)
  | str (s : String)
  | nan
deriving DecidableEq, Repr

/-- pandas `isnull` on a cell. -/
def Val.isNull : Val → Bool
  | .nan => true
  | _ => false

structure DF where
  nrows : Nat
  cols : List (String × List Val)
deriving DecidableEq, Repr

/-- `k in data.columns`. -/
def DF.hasCol (df : DF) (k : String) : Bool := df.cols.any (fun p => p.1 == k)

/-- `data[k]` (first column of that name). -/
def DF.getCol (df : DF) (k : String) : List Val :=
  ((df.cols.find? (fun p => p.1 == k)).map Prod.snd).getD []

/-- `data.assign(k=v)`: replaces the column in place when present,
otherwise appends it on the right. -/
def DF.assign (df : DF) (k : String) (v : List Val) : DF :=
  if df.hasCol k then
    { df with cols := df.cols.map (fun p => if p.1 == k then (k, v) else p) }
  else { df with cols := df.cols ++ [(k, v)] }

/-- `data.drop(columns=ks)` for `ks` already intersected with the present
columns: removes every column whose name is listed. -/
def DF.dropCols (df : DF) (ks : List String) : DF :=
  { df with cols := df.cols.filter (fun p => !(ks.contains p.1)) }

/-- Well-formed table: every column has `nrows` cells and column names are
distinct. -/
def DF.wf (df : DF) : Prop :=
  (∀ p ∈ df.cols, p.2.length = df.nrows) ∧ (df.cols.map Prod.fst).Nodup

/-- One iteration of the conversion loop in `_point_age_time_to_interval`:
`if f"{at}_{lu}" not in data.columns and at in data.columns`, then copy the
point column into the interval column. -/
def DF.stepConv (d : DF) (src tgt : String) : DF :=
  if !(d.hasCol tgt) && d.hasCol src then d.assign tgt (d.getCol src) else d

/-- `Session._point_age_time_to_interval`, loop unrolled in source order
(age then time, lower then upper): a point column is copied into each
missing interval column, then the point columns are dropped. -/
def point_age_time_to_interval (df : DF) : DF :=
  ((((df.stepConv "age" "age_lower").stepConv "age" "age_upper").stepConv
      "time" "time_lower").stepConv "time" "time_upper").dropCols ["age", "time"]

/-- The default positional index rendered as strings, `data.index.astype(str)`. -/
def indexStrs (n : Nat) : List Val := (List.range n).map (fun i => Val.str (toString i))

/-- Fill a missing column with a constant, `data.assign(k=v)` guarded by
`k not in data.columns`. -/
def DF.fillConst (d : DF) (k : String) (v : Val) : DF :=
  if !(d.hasCol k) then d.assign k (List.replicate d.nrows v) else d

/-- The `hold_out`/`nu`/`eta` defaulting tail of `_amend_data_input`. -/
def amend_rest (d1 : DF) : DF :=
  ((d1.fillConst "hold_out" (Val.num 0)).fillConst "nu" Val.nan).fillConst "eta" Val.nan

/-- `Session._amend_data_input`: point-to-interval conversion, then fill a
missing `name` from the index (a present `name` with nulls raises), then
default `hold_out` to 0 and `nu`/`eta` to NaN when absent. -/
def amend_data_input (df : DF) : Except String DF :=
  let d0 := point_age_time_to_interval df
  if !(d0.hasCol "name") then
    .ok (amend_rest (d0.assign "name" (indexStrs d0.nrows)))
  else if (d0.getCol "name").any Val.isNull then
    .error "There are some data values that lack data names."
  else
    .ok (amend_rest d0)

/-! ## Session call ordering, from `Session._fit`, `Session.simulate` and
`Session.setup_model_for_fit`.

The observable side effects of a call are traced as events in source
order; a raise ends the trace. `Model.check_alignment` lives outside the
snapshot, so its verdict is a parameter: `misalignment = some keys` means
the keys named in the mismatch. -/

inductive SessionEvent where
  | normalizeData
  | storeWrite (what : String)
  | runProcess (cmd : List String)
deriving DecidableEq, Repr

def SessionEvent.isRunProcess : SessionEvent → Bool
  | .runProcess _ => true
  | _ => false

/-- `Session.setup_model_for_fit`: writes model, options and data, runs
`init`, then writes the scale variable when the model carries a user scale
or an initial guess was given (otherwise it reads the engine's scale). -/
def setup_model_for_fit_events (hasInitialGuess scaleSetByUser : Bool) :
    List SessionEvent :=
  [.storeWrite "model", .storeWrite "option", .storeWrite "data",
   .runProcess ["init"]] ++
  (if scaleSetByUser then [.storeWrite "scale_var"]
   else if hasInitialGuess then [.storeWrite "scale_var"] else [])

/-- `Session._fit`: alignment check on a supplied initial guess first,
then data normalization, model setup, optional start-variable write, and
the `fit <level>` process run. -/
def fit_events (misalignment : Option String) (hasInitialGuess scaleSetByUser : Bool)
    (fitLevel : String) : List SessionEvent × Option String :=
  let rest : List SessionEvent × Option String :=
    ([SessionEvent.normalizeData] ++
       setup_model_for_fit_events hasInitialGuess scaleSetByUser ++
       (if hasInitialGuess then [SessionEvent.storeWrite "start_var"] else []) ++
       [SessionEvent.runProcess ["fit", fitLevel]], none)
  if hasInitialGuess then
    match misalignment with
    | some m => ([], some ("Model and initial guess are misaligned: " ++ m ++ "."))
    | none => rest
  else rest

/-- `Session.simulate`: data normalization first, then the alignment check
on a supplied `fit_var`, then model setup, truth-variable write, and the
`simulate <count>` process run. -/
def simulate_events (misalignment : Option String) (hasFitVar scaleSetByUser : Bool)
    (simulateCount : Nat) : List SessionEvent × Option String :=
  let rest : List SessionEvent × Option String :=
    ([SessionEvent.normalizeData] ++
       setup_model_for_fit_events hasFitVar scaleSetByUser ++
       [SessionEvent.storeWrite "truth_var",
        SessionEvent.runProcess ["simulate", toString simulateCount]], none)
  if hasFitVar then
    match misalignment with
    | some m =>
        ([SessionEvent.normalizeData],
         some ("Model and fit var are misaligned: " ++ m ++ "."))
    | none => rest
  else rest

/-! ## AgeTimeGrid

Modelled from the spec: the implementation file `cascade/model/age_time_grid.py`
is absent from the repository snapshot (only its tests are present), so
construction and range assignment follow §4.2 of the specification: the
primary store is the Cartesian product of ages and times with the declared
columns initialized to an unset marker, a 3-row mulstd side table, and
closed-interval range assignment that fails when no row matches. -/

structure GridRow where
  age : ℚ
  time : ℚ
  values : List Val
deriving DecidableEq, Repr

structure AgeTimeGrid where
  ages : List ℚ
  times : List ℚ
  columns : List String
  grid : List GridRow
  mulstd : List (String × List Val)
deriving DecidableEq, Repr

/-- A Python argument that is either a bare scalar or a sequence. -/
inductive PyInput where
  | scalar (q : ℚ)
  | seq (l : List ℚ)
deriving DecidableEq, Repr

/-- The Cartesian-product primary store: one row per (age, time) pair,
every declared column initialized to the unset marker. -/
def mkGridRows (ageList timeList : List ℚ) (cols : List String) : List GridRow :=
  ageList.flatMap (fun a => timeList.map
    (fun t => { age := a, time := t, values := cols.map (fun _ => Val.nan) }))

/-- The 3-row mulstd side table, one row per prior kind. -/
def mkMulstd (cols : List String) : List (String × List Val) :=
  [("value_prior", cols.map (fun _ => Val.nan)),
   ("dage_prior", cols.map (fun _ => Val.nan)),
   ("dtime_prior", cols.map (fun _ => Val.nan))]

/-- Modelled from the spec: `AgeTimeGrid(ages, times, columns)` requires
non-empty sequences of distinct values (a scalar is a type error) and
builds one row per (age, time) pair plus the value/dage/dtime mulstd
rows, all columns set to the unset marker. -/
def AgeTimeGrid_init (ages times : PyInput) (columns : List String) :
    Except String AgeTimeGrid :=
  match ages, times with
  | .seq ageList, .seq timeList =>
    if ageList.isEmpty || timeList.isEmpty then
      .error "ages and times must be non-empty"
    else if ageList.Nodup ∧ timeList.Nodup then
      .ok { ages := ageList, times := timeList, columns := columns,
            grid := mkGridRows ageList timeList columns,
            mulstd := mkMulstd columns }
    else .error "ages and times must be distinct"
  | _, _ => .error "TypeError: ages and times must each be a sequence"

/-- Closed-interval membership with optionally open bounds: an open bound
restricts nothing. -/
def inBound (lo hi : Option ℚ) (x : ℚ) : Bool :=
  (match lo with
   | none => true
   | some l => decide (l ≤ x)) &&
  (match hi with
   | none => true
   | some h => decide (x ≤ h))

/-- A grid row lies in the requested age and time intervals. -/
def rowMatches (a0 a1 t0 t1 : Option ℚ) (r : GridRow) : Bool :=
  inBound a0 a1 r.age && inBound t0 t1 r.time

/-- The assigned value: a scalar broadcast to every column, a sequence
assigned across columns in column order, or a column-name-keyed mapping
written onto the named columns only. -/
inductive AssignVal where
  | scalar (v : Val)
  | seqv (vs : List Val)
  | mapping (m : List (String × Val))
deriving DecidableEq, Repr

/-- Write one matched row according to the assigned value form. -/
def writeRow (columns : List String) (value : AssignVal) (r : GridRow) : GridRow :=
  match value with
  | .scalar v => { r with values := columns.map (fun _ => v) }
  | .seqv vs => { r with values := vs }
  | .mapping m =>
    let pick := fun (p : String × Val) =>
      match m.lookup p.1 with
      | some v => v
      | none => p.2
    { r with values := (columns.zip r.values).map pick }

/-- The rewritten primary store of a range assignment: matched rows take
the assigned value, all other rows are kept as they are. -/
def assign_rows (g : AgeTimeGrid) (a0 a1 t0 t1 : Option ℚ) (value : AssignVal) :
    List GridRow :=
  g.grid.map (fun r => if rowMatches a0 a1 t0 t1 r then writeRow g.columns value r else r)

/-- Shape check on the assigned value: a sequence must cover exactly the
declared columns; a scalar or a column-keyed mapping has no length
constraint. -/
def shapeOk (g : AgeTimeGrid) (value : AssignVal) : Bool :=
  match value with
  | .seqv vs => vs.length == g.columns.length
  | _ => true

/-- Modelled from the spec: range assignment `grid[a0:a1, t0:t1] = value`
fails with a range error when zero rows match the closed intervals, fails
with a shape error when a sequence value's length differs from the column
count, and otherwise rewrites exactly the matched rows. -/
def range_assign (g : AgeTimeGrid) (a0 a1 t0 t1 : Option ℚ) (value : AssignVal) :
    Except String AgeTimeGrid :=
  if g.grid.all (fun r => !(rowMatches a0 a1 t0 t1 r)) then
    .error "Range assignment matched no rows"
  else if !(shapeOk g value) then
    .error "Assigned sequence length must equal the column count"
  else
    .ok { g with grid := assign_rows g a0 a1 t0 t1 value }

/-! ## Concrete sample inputs used to instantiate the theorems -/

/-- A small data table with a point `age` column and a measurement column. -/
def sampleDF : DF :=
  { nrows := 2, cols := [("age", [Val.num 1, Val.num 2]), ("meas", [Val.num 5, Val.num 6])] }

/-- A table whose `name` column contains a null. -/
def sampleBad : DF := { nrows := 1, cols := [("name", [Val.nan])] }

/-- The normalized form of `sampleDF`. -/
def sampleOut : DF :=
  { nrows := 2,
    cols := [("meas", [Val.num 5, Val.num 6]),
             ("age_lower", [Val.num 1, Val.num 2]),
             ("age_upper", [Val.num 1, Val.num 2]),
             ("name", [Val.str "0", Val.str "1"]),
             ("hold_out", [Val.num 0, Val.num 0]),
             ("nu", [Val.nan, Val.nan]),
             ("eta", [Val.nan, Val.nan])] }

/-- The spec's example grid: ages 0, 1, 10 and times 2000, 2010 with one
`var_id` column. -/
def sampleGrid : AgeTimeGrid :=
  { ages := [0, 1, 10], times := [2000, 2010], columns := ["var_id"],
    grid := mkGridRows [0, 1, 10] [2000, 2010] ["var_id"],
    mulstd := mkMulstd ["var_id"] }

/-! ## Helper lemmas -/

theorem listContainsSub_nil_needle (hay : List Char) : listContainsSub hay [] = true := by
  cases hay <;> simp [listContainsSub, List.isPrefixOf]

theorem isPrefixOf_append_self (n y : List Char) : n.isPrefixOf (n ++ y) = true := by
  induction n with
  | nil => simp
  | cons c t ih => simp [List.isPrefixOf_cons₂, ih]

theorem listContainsSub_append (x n y : List Char) :
    listContainsSub (x ++ (n ++ y)) n = true := by
  induction x with
  | nil =>
    cases n with
    | nil => exact listContainsSub_nil_needle _
    | cons c t => simp [listContainsSub, isPrefixOf_append_self]
  | cons c xs ih => simp [listContainsSub, ih]

theorem strIn_append (a n b : String) : strIn n (a ++ n ++ b) = true := by
  have h : (a ++ n ++ b).toList = a.toList ++ (n.toList ++ b.toList) := by
    simp [String.toList, List.append_assoc]
  rw [strIn, h]
  exact listContainsSub_append _ _ _

theorem DF.assign_nrows (df : DF) (k : String) (v : List Val) :
    (df.assign k v).nrows = df.nrows := by
  unfold DF.assign
  split <;> rfl

theorem DF.dropCols_nrows (df : DF) (ks : List String) :
    (df.dropCols ks).nrows = df.nrows := rfl

theorem DF.assign_of_absent (df : DF) (k : String) (v : List Val)
    (h : df.hasCol k = false) :
    df.assign k v = { nrows := df.nrows, cols := df.cols ++ [(k, v)] } := by
  rw [DF.assign, if_neg]
  simp [h]

theorem DF.hasCol_assign_absent (df : DF) (k : String) (v : List Val) (k' : String)
    (h : df.hasCol k = false) :
    (df.assign k v).hasCol k' = (df.hasCol k' || (k == k')) := by
  rw [DF.assign_of_absent df k v h]
  simp [DF.hasCol, List.any_append]

theorem DF.getCol_assign_absent_self (df : DF) (k : String) (v : List Val)
    (h : df.hasCol k = false) : (df.assign k v).getCol k = v := by
  have hmem : ∀ x ∈ df.cols, ¬((fun p => p.1 == k) x = true) := by
    rw [DF.hasCol] at h
    exact List.any_eq_false.mp h
  have hn : df.cols.find? (fun p => p.1 == k) = none := List.find?_eq_none.mpr hmem
  rw [DF.assign_of_absent df k v h, DF.getCol]
  simp [hn, List.find?_append]

theorem DF.getCol_assign_absent_other (df : DF) (k : String) (v : List Val) (k' : String)
    (h : df.hasCol k = false) (hne : (k == k') = false) :
    (df.assign k v).getCol k' = df.getCol k' := by
  have hkk : ¬(k = k') := by simpa using hne
  rw [DF.assign_of_absent df k v h, DF.getCol, DF.getCol]
  simp [List.find?_append, hkk]

theorem DF.hasCol_dropCols_mem (df : DF) (ks : List String) (k' : String)
    (h : ks.contains k' = true) : (df.dropCols ks).hasCol k' = false := by
  have hmem : k' ∈ ks := by simpa using h
  rw [DF.dropCols, DF.hasCol, List.any_eq_false]
  intro x hx hbeq
  rw [List.mem_filter] at hx
  have hx1 : x.1 = k' := by simpa using hbeq
  have hc : ks.contains x.1 = false := by simpa using hx.2
  rw [hx1] at hc
  exact absurd hmem (by simpa using hc)

theorem find?_filter_key (cols : List (String × List Val)) (ks : List String) (k' : String)
    (h : ks.contains k' = false) :
    (cols.filter (fun p => !(ks.contains p.1))).find? (fun p => p.1 == k') =
      cols.find? (fun p => p.1 == k') := by
  have h' : k' ∉ ks := by simpa using h
  induction cols with
  | nil => rfl
  | cons p t ih =>
    cases hks : ks.contains p.1 with
    | false =>
      have hkeep : (!(ks.contains p.1)) = true := by rw [hks]; rfl
      rw [List.filter_cons, if_pos hkeep]
      cases hc : (p.1 == k') with
      | true =>
        have hc' : ((fun q : String × List Val => q.1 == k') p = true) := hc
        rw [@List.find?_cons_of_pos _ (fun q => q.1 == k') p _ hc',
          @List.find?_cons_of_pos _ (fun q => q.1 == k') p _ hc']
      | false =>
        have hc' : ¬((fun q : String × List Val => q.1 == k') p = true) := by simp [hc]
        rw [@List.find?_cons_of_neg _ (fun q => q.1 == k') p _ hc',
          @List.find?_cons_of_neg _ (fun q => q.1 == k') p _ hc', ih]
    | true =>
      have hdrop : ¬((!(ks.contains p.1)) = true) := by rw [hks]; simp
      rw [List.filter_cons, if_neg hdrop]
      have hpk : (p.1 == k') = false := by
        have hm : p.1 ∈ ks := by
          have := hks
          simpa using this
        have hne : ¬(p.1 = k') := fun he => h' (he ▸ hm)
        simpa using hne
      have hc' : ¬((fun q : String × List Val => q.1 == k') p = true) := by simp [hpk]
      rw [@List.find?_cons_of_neg _ (fun q => q.1 == k') p _ hc', ih]

theorem any_filter_key (cols : List (String × List Val)) (ks : List String) (k' : String)
    (h : ks.contains k' = false) :
    (cols.filter (fun p => !(ks.contains p.1))).any (fun p => p.1 == k') =
      cols.any (fun p => p.1 == k') := by
  induction cols with
  | nil => rfl
  | cons p t ih =>
    cases hks : ks.contains p.1 with
    | false =>
      have hkeep : (!(ks.contains p.1)) = true := by rw [hks]; rfl
      rw [List.filter_cons, if_pos hkeep, List.any_cons, List.any_cons, ih]
    | true =>
      have hdrop : ¬((!(ks.contains p.1)) = true) := by rw [hks]; simp
      rw [List.filter_cons, if_neg hdrop]
      have hpk : (p.1 == k') = false := by
        have hm : p.1 ∈ ks := by
          have := hks
          simpa using this
        have hne : ¬(p.1 = k') := by
          intro he
          rw [he] at hm
          exact absurd hm (by simpa using h)
        simpa using hne
      rw [List.any_cons, hpk, Bool.false_or, ih]

theorem DF.hasCol_dropCols_not_mem (df : DF) (ks : List String) (k' : String)
    (h : ks.contains k' = false) : (df.dropCols ks).hasCol k' = df.hasCol k' := by
  simp only [DF.dropCols, DF.hasCol]
  exact any_filter_key df.cols ks k' h

theorem DF.getCol_dropCols_not_mem (df : DF) (ks : List String) (k' : String)
    (h : ks.contains k' = false) : (df.dropCols ks).getCol k' = df.getCol k' := by
  simp only [DF.dropCols, DF.getCol]
  rw [find?_filter_key df.cols ks k' h]

theorem DF.dropCols_eq_self (df : DF) (ks : List String)
    (h : ∀ p ∈ df.cols, ks.contains p.1 = false) : df.dropCols ks = df := by
  rw [DF.dropCols]
  have he : df.cols.filter (fun p => !(ks.contains p.1)) = df.cols :=
    List.filter_eq_self.mpr (fun a ha => by rw [h a ha]; rfl)
  rw [he]

theorem DF.stepConv_nrows (d : DF) (src tgt : String) :
    (d.stepConv src tgt).nrows = d.nrows := by
  rw [DF.stepConv]
  split
  · exact d.assign_nrows tgt _
  · rfl

theorem DF.stepConv_cond_false (d : DF) (src tgt : String)
    (h : (!(d.hasCol tgt) && d.hasCol src) = false) : d.stepConv src tgt = d := by
  rw [DF.stepConv, if_neg]
  simp [h]

theorem DF.stepConv_skip (d : DF) (src tgt : String) (hs : d.hasCol src = false) :
    d.stepConv src tgt = d := by
  apply d.stepConv_cond_false
  rw [hs, Bool.and_false]

theorem DF.stepConv_hasCol_other (d : DF) (src tgt k' : String)
    (hne : (tgt == k') = false) : (d.stepConv src tgt).hasCol k' = d.hasCol k' := by
  rw [DF.stepConv]
  split
  · rename_i hcond
    have ht : d.hasCol tgt = false := by
      cases hh : d.hasCol tgt
      · rfl
      · rw [hh] at hcond
        simp at hcond
    rw [d.hasCol_assign_absent tgt _ k' ht, hne, Bool.or_false]
  · rfl

theorem DF.stepConv_getCol_other (d : DF) (src tgt k' : String)
    (hne : (tgt == k') = false) : (d.stepConv src tgt).getCol k' = d.getCol k' := by
  rw [DF.stepConv]
  split
  · rename_i hcond
    have ht : d.hasCol tgt = false := by
      cases hh : d.hasCol tgt
      · rfl
      · rw [hh] at hcond
        simp at hcond
    exact d.getCol_assign_absent_other tgt _ k' ht hne
  · rfl

theorem DF.stepConv_getCol_tgt_present (d : DF) (src tgt : String)
    (h : d.hasCol tgt = true) : (d.stepConv src tgt).getCol tgt = d.getCol tgt := by
  rw [d.stepConv_cond_false src tgt (by rw [h]; rfl)]

theorem DF.stepConv_getCol_tgt_absent (d : DF) (src tgt : String)
    (h : d.hasCol tgt = false) (hs : d.hasCol src = true) :
    (d.stepConv src tgt).getCol tgt = d.getCol src := by
  rw [DF.stepConv, if_pos (by rw [h, hs]; rfl)]
  exact d.getCol_assign_absent_self tgt _ h

theorem DF.stepConv_hasCol_tgt (d : DF) (src tgt : String) (hs : d.hasCol src = true) :
    (d.stepConv src tgt).hasCol tgt = true := by
  cases h : d.hasCol tgt with
  | true =>
    rw [d.stepConv_cond_false src tgt (by rw [h]; rfl), h]
  | false =>
    rw [DF.stepConv, if_pos (by rw [h, hs]; rfl),
      d.hasCol_assign_absent tgt _ tgt h, h]
    simp

theorem DF.fillConst_nrows (d : DF) (k : String) (v : Val) :
    (d.fillConst k v).nrows = d.nrows := by
  rw [DF.fillConst]
  split
  · exact d.assign_nrows k _
  · rfl

theorem DF.fillConst_of_present (d : DF) (k : String) (v : Val)
    (h : d.hasCol k = true) : d.fillConst k v = d := by
  rw [DF.fillConst, if_neg]
  simp [h]

theorem DF.fillConst_hasCol_self (d : DF) (k : String) (v : Val) :
    (d.fillConst k v).hasCol k = true := by
  cases h : d.hasCol k with
  | true => rw [d.fillConst_of_present k v h, h]
  | false =>
    rw [DF.fillConst, if_pos (by rw [h]; rfl), d.hasCol_assign_absent k _ k h, h]
    simp

theorem DF.fillConst_hasCol_other (d : DF) (k : String) (v : Val) (k' : String)
    (hne : (k == k') = false) : (d.fillConst k v).hasCol k' = d.hasCol k' := by
  cases h : d.hasCol k with
  | true => rw [d.fillConst_of_present k v h]
  | false =>
    rw [DF.fillConst, if_pos (by rw [h]; rfl), d.hasCol_assign_absent k _ k' h, hne,
      Bool.or_false]

theorem DF.fillConst_getCol_other (d : DF) (k : String) (v : Val) (k' : String)
    (hne : (k == k') = false) : (d.fillConst k v).getCol k' = d.getCol k' := by
  cases h : d.hasCol k with
  | true => rw [d.fillConst_of_present k v h]
  | false =>
    rw [DF.fillConst, if_pos (by rw [h]; rfl)]
    exact d.getCol_assign_absent_other k _ k' h hne

theorem DF.fillConst_getCol_self_absent (d : DF) (k : String) (v : Val)
    (h : d.hasCol k = false) :
    (d.fillConst k v).getCol k = List.replicate d.nrows v := by
  rw [DF.fillConst, if_pos (by rw [h]; rfl)]
  exact d.getCol_assign_absent_self k _ h

theorem point_nrows (df : DF) : (point_age_time_to_interval df).nrows = df.nrows := by
  rw [point_age_time_to_interval, DF.dropCols_nrows, DF.stepConv_nrows, DF.stepConv_nrows,
    DF.stepConv_nrows, DF.stepConv_nrows]

theorem point_hasCol_age (df : DF) :
    (point_age_time_to_interval df).hasCol "age" = false := by
  rw [point_age_time_to_interval]
  exact DF.hasCol_dropCols_mem _ _ _ (by decide)

theorem point_hasCol_time (df : DF) :
    (point_age_time_to_interval df).hasCol "time" = false := by
  rw [point_age_time_to_interval]
  exact DF.hasCol_dropCols_mem _ _ _ (by decide)

theorem point_hasCol_other (df : DF) (k' : String)
    (h1 : ("age_lower" == k') = false) (h2 : ("age_upper" == k') = false)
    (h3 : ("time_lower" == k') = false) (h4 : ("time_upper" == k') = false)
    (h5 : (["age", "time"].contains k') = false) :
    (point_age_time_to_interval df).hasCol k' = df.hasCol k' := by
  rw [point_age_time_to_interval, DF.hasCol_dropCols_not_mem _ _ _ h5,
    DF.stepConv_hasCol_other _ _ _ _ h4, DF.stepConv_hasCol_other _ _ _ _ h3,
    DF.stepConv_hasCol_other _ _ _ _ h2, DF.stepConv_hasCol_other _ _ _ _ h1]

theorem point_getCol_other (df : DF) (k' : String)
    (h1 : ("age_lower" == k') = false) (h2 : ("age_upper" == k') = false)
    (h3 : ("time_lower" == k') = false) (h4 : ("time_upper" == k') = false)
    (h5 : (["age", "time"].contains k') = false) :
    (point_age_time_to_interval df).getCol k' = df.getCol k' := by
  rw [point_age_time_to_interval, DF.getCol_dropCols_not_mem _ _ _ h5,
    DF.stepConv_getCol_other _ _ _ _ h4, DF.stepConv_getCol_other _ _ _ _ h3,
    DF.stepConv_getCol_other _ _ _ _ h2, DF.stepConv_getCol_other _ _ _ _ h1]

theorem point_getCol_age_lower_absent (df : DF) (h : df.hasCol "age_lower" = false)
    (ha : df.hasCol "age" = true) :
    (point_age_time_to_interval df).getCol "age_lower" = df.getCol "age" := by
  rw [point_age_time_to_interval, DF.getCol_dropCols_not_mem _ _ _ (by decide),
    DF.stepConv_getCol_other _ _ _ _ (by decide),
    DF.stepConv_getCol_other _ _ _ _ (by decide),
    DF.stepConv_getCol_other _ _ _ _ (by decide)]
  exact df.stepConv_getCol_tgt_absent _ _ h ha

theorem point_getCol_age_lower_present (df : DF) (h : df.hasCol "age_lower" = true) :
    (point_age_time_to_interval df).getCol "age_lower" = df.getCol "age_lower" := by
  rw [point_age_time_to_interval, DF.getCol_dropCols_not_mem _ _ _ (by decide),
    DF.stepConv_getCol_other _ _ _ _ (by decide),
    DF.stepConv_getCol_other _ _ _ _ (by decide),
    DF.stepConv_getCol_other _ _ _ _ (by decide)]
  exact df.stepConv_getCol_tgt_present _ _ h

theorem point_getCol_age_upper_absent (df : DF) (h : df.hasCol "age_upper" = false)
    (ha : df.hasCol "age" = true) :
    (point_age_time_to_interval df).getCol "age_upper" = df.getCol "age" := by
  rw [point_age_time_to_interval, DF.getCol_dropCols_not_mem _ _ _ (by decide),
    DF.stepConv_getCol_other _ _ _ _ (by decide),
    DF.stepConv_getCol_other _ _ _ _ (by decide)]
  have e1 : (df.stepConv "age" "age_lower").hasCol "age_upper" = df.hasCol "age_upper" :=
    DF.stepConv_hasCol_other _ _ _ _ (by decide)
  have e2 : (df.stepConv "age" "age_lower").hasCol "age" = df.hasCol "age" :=
    DF.stepConv_hasCol_other _ _ _ _ (by decide)
  have e3 : (df.stepConv "age" "age_lower").getCol "age" = df.getCol "age" :=
    DF.stepConv_getCol_other _ _ _ _ (by decide)
  rw [DF.stepConv_getCol_tgt_absent _ _ _ (by rw [e1, h]) (by rw [e2, ha]), e3]

theorem point_getCol_age_upper_present (df : DF) (h : df.hasCol "age_upper" = true) :
    (point_age_time_to_interval df).getCol "age_upper" = df.getCol "age_upper" := by
  rw [point_age_time_to_interval, DF.getCol_dropCols_not_mem _ _ _ (by decide),
    DF.stepConv_getCol_other _ _ _ _ (by decide),
    DF.stepConv_getCol_other _ _ _ _ (by decide)]
  have e1 : (df.stepConv "age" "age_lower").hasCol "age_upper" = df.hasCol "age_upper" :=
    DF.stepConv_hasCol_other _ _ _ _ (by decide)
  rw [DF.stepConv_getCol_tgt_present _ _ _ (by rw [e1, h]),
    DF.stepConv_getCol_other _ _ _ _ (by decide)]

theorem point_getCol_time_lower_absent (df : DF) (h : df.hasCol "time_lower" = false)
    (ht : df.hasCol "time" = true) :
    (point_age_time_to_interval df).getCol "time_lower" = df.getCol "time" := by
  rw [point_age_time_to_interval, DF.getCol_dropCols_not_mem _ _ _ (by decide),
    DF.stepConv_getCol_other _ _ _ _ (by decide)]
  have e1 : ((df.stepConv "age" "age_lower").stepConv "age" "age_upper").hasCol "time_lower"
      = df.hasCol "time_lower" := by
    rw [DF.stepConv_hasCol_other _ _ _ _ (by decide),
      DF.stepConv_hasCol_other _ _ _ _ (by decide)]
  have e2 : ((df.stepConv "age" "age_lower").stepConv "age" "age_upper").hasCol "time"
      = df.hasCol "time" := by
    rw [DF.stepConv_hasCol_other _ _ _ _ (by decide),
      DF.stepConv_hasCol_other _ _ _ _ (by decide)]
  have e3 : ((df.stepConv "age" "age_lower").stepConv "age" "age_upper").getCol "time"
      = df.getCol "time" := by
    rw [DF.stepConv_getCol_other _ _ _ _ (by decide),
      DF.stepConv_getCol_other _ _ _ _ (by decide)]
  rw [DF.stepConv_getCol_tgt_absent _ _ _ (by rw [e1, h]) (by rw [e2, ht]), e3]

theorem point_getCol_time_lower_present (df : DF) (h : df.hasCol "time_lower" = true) :
    (point_age_time_to_interval df).getCol "time_lower" = df.getCol "time_lower" := by
  rw [point_age_time_to_interval, DF.getCol_dropCols_not_mem _ _ _ (by decide),
    DF.stepConv_getCol_other _ _ _ _ (by decide)]
  have e1 : ((df.stepConv "age" "age_lower").stepConv "age" "age_upper").hasCol "time_lower"
      = df.hasCol "time_lower" := by
    rw [DF.stepConv_hasCol_other _ _ _ _ (by decide),
      DF.stepConv_hasCol_other _ _ _ _ (by decide)]
  rw [DF.stepConv_getCol_tgt_present _ _ _ (by rw [e1, h]),
    DF.stepConv_getCol_other _ _ _ _ (by decide),
    DF.stepConv_getCol_other _ _ _ _ (by decide)]

theorem point_getCol_time_upper_absent (df : DF) (h : df.hasCol "time_upper" = false)
    (ht : df.hasCol "time" = true) :
    (point_age_time_to_interval df).getCol "time_upper" = df.getCol "time" := by
  rw [point_age_time_to_interval, DF.getCol_dropCols_not_mem _ _ _ (by decide)]
  have e1 : (((df.stepConv "age" "age_lower").stepConv "age" "age_upper").stepConv
      "time" "time_lower").hasCol "time_upper" = df.hasCol "time_upper" := by
    rw [DF.stepConv_hasCol_other _ _ _ _ (by decide),
      DF.stepConv_hasCol_other _ _ _ _ (by decide),
      DF.stepConv_hasCol_other _ _ _ _ (by decide)]
  have e2 : (((df.stepConv "age" "age_lower").stepConv "age" "age_upper").stepConv
      "time" "time_lower").hasCol "time" = df.hasCol "time" := by
    rw [DF.stepConv_hasCol_other _ _ _ _ (by decide),
      DF.stepConv_hasCol_other _ _ _ _ (by decide),
      DF.stepConv_hasCol_other _ _ _ _ (by decide)]
  have e3 : (((df.stepConv "age" "age_lower").stepConv "age" "age_upper").stepConv
      "time" "time_lower").getCol "time" = df.getCol "time" := by
    rw [DF.stepConv_getCol_other _ _ _ _ (by decide),
      DF.stepConv_getCol_other _ _ _ _ (by decide),
      DF.stepConv_getCol_other _ _ _ _ (by decide)]
  rw [DF.stepConv_getCol_tgt_absent _ _ _ (by rw [e1, h]) (by rw [e2, ht]), e3]

theorem point_getCol_time_upper_present (df : DF) (h : df.hasCol "time_upper" = true) :
    (point_age_time_to_interval df).getCol "time_upper" = df.getCol "time_upper" := by
  rw [point_age_time_to_interval, DF.getCol_dropCols_not_mem _ _ _ (by decide)]
  have e1 : (((df.stepConv "age" "age_lower").stepConv "age" "age_upper").stepConv
      "time" "time_lower").hasCol "time_upper" = df.hasCol "time_upper" := by
    rw [DF.stepConv_hasCol_other _ _ _ _ (by decide),
      DF.stepConv_hasCol_other _ _ _ _ (by decide),
      DF.stepConv_hasCol_other _ _ _ _ (by decide)]
  rw [DF.stepConv_getCol_tgt_present _ _ _ (by rw [e1, h]),
    DF.stepConv_getCol_other _ _ _ _ (by decide),
    DF.stepConv_getCol_other _ _ _ _ (by decide),
    DF.stepConv_getCol_other _ _ _ _ (by decide)]

theorem amend_rest_nrows (d : DF) : (amend_rest d).nrows = d.nrows := by
  rw [amend_rest, DF.fillConst_nrows, DF.fillConst_nrows, DF.fillConst_nrows]

theorem amend_rest_getCol_preserved (d : DF) (k' : String)
    (h1 : ("hold_out" == k') = false) (h2 : ("nu" == k') = false)
    (h3 : ("eta" == k') = false) : (amend_rest d).getCol k' = d.getCol k' := by
  rw [amend_rest, DF.fillConst_getCol_other _ _ _ _ h3, DF.fillConst_getCol_other _ _ _ _ h2,
    DF.fillConst_getCol_other _ _ _ _ h1]

theorem amend_rest_hasCol_preserved (d : DF) (k' : String)
    (h1 : ("hold_out" == k') = false) (h2 : ("nu" == k') = false)
    (h3 : ("eta" == k') = false) : (amend_rest d).hasCol k' = d.hasCol k' := by
  rw [amend_rest, DF.fillConst_hasCol_other _ _ _ _ h3, DF.fillConst_hasCol_other _ _ _ _ h2,
    DF.fillConst_hasCol_other _ _ _ _ h1]

theorem amend_rest_hasCol_hold_out (d : DF) : (amend_rest d).hasCol "hold_out" = true := by
  rw [amend_rest, DF.fillConst_hasCol_other _ _ _ _ (by decide),
    DF.fillConst_hasCol_other _ _ _ _ (by decide)]
  exact DF.fillConst_hasCol_self _ _ _

theorem amend_rest_hasCol_nu (d : DF) : (amend_rest d).hasCol "nu" = true := by
  rw [amend_rest, DF.fillConst_hasCol_other _ _ _ _ (by decide)]
  exact DF.fillConst_hasCol_self _ _ _

theorem amend_rest_hasCol_eta (d : DF) : (amend_rest d).hasCol "eta" = true := by
  rw [amend_rest]
  exact DF.fillConst_hasCol_self _ _ _

theorem amend_rest_getCol_hold_out_absent (d : DF) (h : d.hasCol "hold_out" = false) :
    (amend_rest d).getCol "hold_out" = List.replicate d.nrows (Val.num 0) := by
  rw [amend_rest, DF.fillConst_getCol_other _ _ _ _ (by decide),
    DF.fillConst_getCol_other _ _ _ _ (by decide),
    DF.fillConst_getCol_self_absent _ _ _ h]

theorem amend_rest_getCol_nu_absent (d : DF) (h : d.hasCol "nu" = false) :
    (amend_rest d).getCol "nu" = List.replicate d.nrows Val.nan := by
  rw [amend_rest, DF.fillConst_getCol_other _ _ _ _ (by decide)]
  have hd : (d.fillConst "hold_out" (Val.num 0)).hasCol "nu" = false := by
    rw [DF.fillConst_hasCol_other _ _ _ _ (by decide), h]
  rw [DF.fillConst_getCol_self_absent _ _ _ hd, DF.fillConst_nrows]

theorem amend_rest_getCol_eta_absent (d : DF) (h : d.hasCol "eta" = false) :
    (amend_rest d).getCol "eta" = List.replicate d.nrows Val.nan := by
  rw [amend_rest]
  have hd : ((d.fillConst "hold_out" (Val.num 0)).fillConst "nu" Val.nan).hasCol "eta"
      = false := by
    rw [DF.fillConst_hasCol_other _ _ _ _ (by decide),
      DF.fillConst_hasCol_other _ _ _ _ (by decide), h]
  rw [DF.fillConst_getCol_self_absent _ _ _ hd, DF.fillConst_nrows, DF.fillConst_nrows]

theorem amend_rest_of_present (d : DF) (h5 : d.hasCol "hold_out" = true)
    (h6 : d.hasCol "nu" = true) (h7 : d.hasCol "eta" = true) : amend_rest d = d := by
  rw [amend_rest, DF.fillConst_of_present _ _ _ h5, DF.fillConst_of_present _ _ _ h6,
    DF.fillConst_of_present _ _ _ h7]

theorem indexStrs_noNull (n : Nat) : (indexStrs n).any Val.isNull = false := by
  simp [indexStrs, Val.isNull]

theorem amend_ok_cases (df out : DF) (h : amend_data_input df = .ok out) :
    ((point_age_time_to_interval df).hasCol "name" = false ∧
      out = amend_rest ((point_age_time_to_interval df).assign "name"
        (indexStrs (point_age_time_to_interval df).nrows))) ∨
    ((point_age_time_to_interval df).hasCol "name" = true ∧
      ((point_age_time_to_interval df).getCol "name").any Val.isNull = false ∧
      out = amend_rest (point_age_time_to_interval df)) := by
  rw [amend_data_input] at h
  cases h1 : (point_age_time_to_interval df).hasCol "name" with
  | false =>
    rw [h1] at h
    simp at h
    exact Or.inl ⟨rfl, h.symm⟩
  | true =>
    rw [h1] at h
    cases h2 : ((point_age_time_to_interval df).getCol "name").any Val.isNull with
    | true =>
      rw [h2] at h
      simp at h
    | false =>
      rw [h2] at h
      simp at h
      exact Or.inr ⟨rfl, rfl, h.symm⟩

theorem amend_error_of_null_name (df : DF)
    (h1 : (point_age_time_to_interval df).hasCol "name" = true)
    (h2 : ((point_age_time_to_interval df).getCol "name").any Val.isNull = true) :
    amend_data_input df = .error "There are some data values that lack data names." := by
  rw [amend_data_input, h1, h2]
  simp

/-! ## Claim theorems for data normalization -/

/-- Claim C4: normalization converts point age/time columns to interval
columns only when the interval column is absent and then drops the point
columns; a missing name column is filled from the row position while a
present name column containing a null is a hard error; a missing hold_out
column defaults to 0; missing nu/eta columns default to the NaN marker,
which is not zero. -/
theorem amend_data_input_normalizes (df : DF) :
    (∀ out, amend_data_input df = Except.ok out →
      ((df.hasCol "age_lower" = false ∧ df.hasCol "age" = true →
          out.getCol "age_lower" = df.getCol "age") ∧
       (df.hasCol "age_lower" = true → out.getCol "age_lower" = df.getCol "age_lower") ∧
       (df.hasCol "age_upper" = false ∧ df.hasCol "age" = true →
          out.getCol "age_upper" = df.getCol "age") ∧
       (df.hasCol "age_upper" = true → out.getCol "age_upper" = df.getCol "age_upper") ∧
       (df.hasCol "time_lower" = false ∧ df.hasCol "time" = true →
          out.getCol "time_lower" = df.getCol "time") ∧
       (df.hasCol "time_lower" = true → out.getCol "time_lower" = df.getCol "time_lower") ∧
       (df.hasCol "time_upper" = false ∧ df.hasCol "time" = true →
          out.getCol "time_upper" = df.getCol "time") ∧
       (df.hasCol "time_upper" = true → out.getCol "time_upper" = df.getCol "time_upper") ∧
       out.hasCol "age" = false ∧ out.hasCol "time" = false ∧
       (df.hasCol "name" = false → out.getCol "name" = indexStrs df.nrows) ∧
       (df.hasCol "hold_out" = false →
          out.getCol "hold_out" = List.replicate df.nrows (Val.num 0)) ∧
       (df.hasCol "nu" = false → out.getCol "nu" = List.replicate df.nrows Val.nan) ∧
       (df.hasCol "eta" = false → out.getCol "eta" = List.replicate df.nrows Val.nan) ∧
       Val.nan ≠ Val.num 0)) ∧
    (df.hasCol "name" = true → (df.getCol "name").any Val.isNull = true →
       amend_data_input df =
         Except.error "There are some data values that lack data names.") := by
  constructor
  · intro out h
    have hg : ∀ k', ("name" == k') = false → ("hold_out" == k') = false →
        ("nu" == k') = false → ("eta" == k') = false →
        out.getCol k' = (point_age_time_to_interval df).getCol k' := by
      intro k' e1 e2 e3 e4
      rcases amend_ok_cases df out h with ⟨hn, hout⟩ | ⟨hn, hnull, hout⟩
      · rw [hout, amend_rest_getCol_preserved _ _ e2 e3 e4,
          DF.getCol_assign_absent_other _ _ _ _ hn e1]
      · rw [hout, amend_rest_getCol_preserved _ _ e2 e3 e4]
    have hh : ∀ k', ("name" == k') = false → ("hold_out" == k') = false →
        ("nu" == k') = false → ("eta" == k') = false →
        out.hasCol k' = (point_age_time_to_interval df).hasCol k' := by
      intro k' e1 e2 e3 e4
      rcases amend_ok_cases df out h with ⟨hn, hout⟩ | ⟨hn, hnull, hout⟩
      · rw [hout, amend_rest_hasCol_preserved _ _ e2 e3 e4,
          DF.hasCol_assign_absent _ _ _ _ hn, e1, Bool.or_false]
      · rw [hout, amend_rest_hasCol_preserved _ _ e2 e3 e4]
    refine ⟨?_, ?_, ?_, ?_, ?_, ?_, ?_, ?_, ?_, ?_, ?_, ?_, ?_, ?_, by decide⟩
    · intro ha
      rw [hg "age_lower" (by decide) (by decide) (by decide) (by decide),
        point_getCol_age_lower_absent df ha.1 ha.2]
    · intro ha
      rw [hg "age_lower" (by decide) (by decide) (by decide) (by decide),
        point_getCol_age_lower_present df ha]
    · intro ha
      rw [hg "age_upper" (by decide) (by decide) (by decide) (by decide),
        point_getCol_age_upper_absent df ha.1 ha.2]
    · intro ha
      rw [hg "age_upper" (by decide) (by decide) (by decide) (by decide),
        point_getCol_age_upper_present df ha]
    · intro ha
      rw [hg "time_lower" (by decide) (by decide) (by decide) (by decide),
        point_getCol_time_lower_absent df ha.1 ha.2]
    · intro ha
      rw [hg "time_lower" (by decide) (by decide) (by decide) (by decide),
        point_getCol_time_lower_present df ha]
    · intro ha
      rw [hg "time_upper" (by decide) (by decide) (by decide) (by decide),
        point_getCol_time_upper_absent df ha.1 ha.2]
    · intro ha
      rw [hg "time_upper" (by decide) (by decide) (by decide) (by decide),
        point_getCol_time_upper_present df ha]
    · rw [hh "age" (by decide) (by decide) (by decide) (by decide), point_hasCol_age]
    · rw [hh "time" (by decide) (by decide) (by decide) (by decide), point_hasCol_time]
    · intro hnm
      have hd0 : (point_age_time_to_interval df).hasCol "name" = false := by
        rw [point_hasCol_other df "name" (by decide) (by decide) (by decide) (by decide)
          (by decide), hnm]
      rcases amend_ok_cases df out h with ⟨hn, hout⟩ | ⟨hn, hnull, hout⟩
      · rw [hout, amend_rest_getCol_preserved _ _ (by decide) (by decide) (by decide),
          DF.getCol_assign_absent_self _ _ _ hn, point_nrows]
      · rw [hn] at hd0
        exact absurd hd0 (by decide)
    · intro hho
      have hd0 : (point_age_time_to_interval df).hasCol "hold_out" = false := by
        rw [point_hasCol_other df "hold_out" (by decide) (by decide) (by decide) (by decide)
          (by decide), hho]
      rcases amend_ok_cases df out h with ⟨hn, hout⟩ | ⟨hn, hnull, hout⟩
      · have hd1 : ((point_age_time_to_interval df).assign "name"
            (indexStrs (point_age_time_to_interval df).nrows)).hasCol "hold_out" = false := by
          rw [DF.hasCol_assign_absent _ _ _ _ hn, hd0]
          decide
        rw [hout, amend_rest_getCol_hold_out_absent _ hd1, DF.assign_nrows, point_nrows]
      · rw [hout, amend_rest_getCol_hold_out_absent _ hd0, point_nrows]
    · intro hnu
      have hd0 : (point_age_time_to_interval df).hasCol "nu" = false := by
        rw [point_hasCol_other df "nu" (by decide) (by decide) (by decide) (by decide)
          (by decide), hnu]
      rcases amend_ok_cases df out h with ⟨hn, hout⟩ | ⟨hn, hnull, hout⟩
      · have hd1 : ((point_age_time_to_interval df).assign "name"
            (indexStrs (point_age_time_to_interval df).nrows)).hasCol "nu" = false := by
          rw [DF.hasCol_assign_absent _ _ _ _ hn, hd0]
          decide
        rw [hout, amend_rest_getCol_nu_absent _ hd1, DF.assign_nrows, point_nrows]
      · rw [hout, amend_rest_getCol_nu_absent _ hd0, point_nrows]
    · intro heta
      have hd0 : (point_age_time_to_interval df).hasCol "eta" = false := by
        rw [point_hasCol_other df "eta" (by decide) (by decide) (by decide) (by decide)
          (by decide), heta]
      rcases amend_ok_cases df out h with ⟨hn, hout⟩ | ⟨hn, hnull, hout⟩
      · have hd1 : ((point_age_time_to_interval df).assign "name"
            (indexStrs (point_age_time_to_interval df).nrows)).hasCol "eta" = false := by
          rw [DF.hasCol_assign_absent _ _ _ _ hn, hd0]
          decide
        rw [hout, amend_rest_getCol_eta_absent _ hd1, DF.assign_nrows, point_nrows]
      · rw [hout, amend_rest_getCol_eta_absent _ hd0, point_nrows]
  · intro hnm hnull
    apply amend_error_of_null_name df
    · rw [point_hasCol_other df "name" (by decide) (by decide) (by decide) (by decide)
        (by decide), hnm]
    · rw [point_getCol_other df "name" (by decide) (by decide) (by decide) (by decide)
        (by decide), hnull]

/-- Claim C5: data normalization is idempotent — whenever normalization
succeeds on a table, applying it again to the output returns that output
unchanged. -/
theorem amend_data_input_idempotent (df out : DF)
    (h : amend_data_input df = Except.ok out) :
    amend_data_input out = Except.ok out := by
  have hage : out.hasCol "age" = false := by
    rcases amend_ok_cases df out h with ⟨hn, hout⟩ | ⟨hn, hnull, hout⟩
    · rw [hout, amend_rest_hasCol_preserved _ _ (by decide) (by decide) (by decide),
        DF.hasCol_assign_absent _ _ _ _ hn, point_hasCol_age]
      decide
    · rw [hout, amend_rest_hasCol_preserved _ _ (by decide) (by decide) (by decide),
        point_hasCol_age]
  have htime : out.hasCol "time" = false := by
    rcases amend_ok_cases df out h with ⟨hn, hout⟩ | ⟨hn, hnull, hout⟩
    · rw [hout, amend_rest_hasCol_preserved _ _ (by decide) (by decide) (by decide),
        DF.hasCol_assign_absent _ _ _ _ hn, point_hasCol_time]
      decide
    · rw [hout, amend_rest_hasCol_preserved _ _ (by decide) (by decide) (by decide),
        point_hasCol_time]
  have hname : out.hasCol "name" = true := by
    rcases amend_ok_cases df out h with ⟨hn, hout⟩ | ⟨hn, hnull, hout⟩
    · rw [hout, amend_rest_hasCol_preserved _ _ (by decide) (by decide) (by decide),
        DF.hasCol_assign_absent _ _ _ _ hn, hn]
      decide
    · rw [hout, amend_rest_hasCol_preserved _ _ (by decide) (by decide) (by decide), hn]
  have hnull : (out.getCol "name").any Val.isNull = false := by
    rcases amend_ok_cases df out h with ⟨hn, hout⟩ | ⟨hn, hnull0, hout⟩
    · rw [hout, amend_rest_getCol_preserved _ _ (by decide) (by decide) (by decide),
        DF.getCol_assign_absent_self _ _ _ hn]
      exact indexStrs_noNull _
    · rw [hout, amend_rest_getCol_preserved _ _ (by decide) (by decide) (by decide)]
      exact hnull0
  have hho : out.hasCol "hold_out" = true := by
    rcases amend_ok_cases df out h with ⟨hn, hout⟩ | ⟨hn, hnull0, hout⟩ <;>
      rw [hout] <;> exact amend_rest_hasCol_hold_out _
  have hnu : out.hasCol "nu" = true := by
    rcases amend_ok_cases df out h with ⟨hn, hout⟩ | ⟨hn, hnull0, hout⟩ <;>
      rw [hout] <;> exact amend_rest_hasCol_nu _
  have heta : out.hasCol "eta" = true := by
    rcases amend_ok_cases df out h with ⟨hn, hout⟩ | ⟨hn, hnull0, hout⟩ <;>
      rw [hout] <;> exact amend_rest_hasCol_eta _
  have hpoint : point_age_time_to_interval out = out := by
    rw [point_age_time_to_interval, DF.stepConv_skip _ _ _ hage,
      DF.stepConv_skip _ _ _ hage, DF.stepConv_skip _ _ _ htime,
      DF.stepConv_skip _ _ _ htime]
    apply DF.dropCols_eq_self
    intro p hp
    have e1 : (p.1 == "age") = false := by
      rw [DF.hasCol] at hage
      cases hx : (p.1 == "age") with
      | true => exact absurd hx ((List.any_eq_false.mp hage) p hp)
      | false => rfl
    have e2 : (p.1 == "time") = false := by
      rw [DF.hasCol] at htime
      cases hx : (p.1 == "time") with
      | true => exact absurd hx ((List.any_eq_false.mp htime) p hp)
      | false => rfl
    rw [List.contains_cons, List.contains_cons, e1, e2]
    simp
  rw [amend_data_input, hpoint, hname, hnull]
  simp [amend_rest_of_present out hho hnu heta]

/-- Witness for C4 at concrete tables: `sampleDF` normalizes with the point
age column converted, dropped, and defaults filled; `sampleBad` errors on
its null name. -/
theorem amend_data_input_normalizes_witness :
    (∃ out, amend_data_input sampleDF = Except.ok out ∧
       out.getCol "age_lower" = sampleDF.getCol "age" ∧ out.hasCol "age" = false ∧
       out.getCol "hold_out" = List.replicate 2 (Val.num 0)) ∧
    amend_data_input sampleBad =
      Except.error "There are some data values that lack data names." := by
  constructor
  · have h := (amend_data_input_normalizes sampleDF).1 sampleOut rfl
    obtain ⟨c1, c2, c3, c4, c5, c6, c7, c8, c9, c10, c11, c12, c13, c14, c15⟩ := h
    exact ⟨sampleOut, rfl, c1 ⟨rfl, rfl⟩, c9, c12 rfl⟩
  · exact (amend_data_input_normalizes sampleBad).2 rfl rfl

/-- Witness for C5: re-normalizing the normalized form of `sampleDF`
returns it unchanged. -/
theorem amend_data_input_idempotent_witness :
    amend_data_input sampleOut = Except.ok sampleOut :=
  amend_data_input_idempotent sampleDF sampleOut rfl

/-! ## Claim theorems for the session protocol -/

/-- Claim C1: after a Dismod command returns, when the persisted log is
empty or its final message lacks `end <command>`, the out-of-memory
sentinel in stdout or stderr raises a fatal error; otherwise the
maximum-iterations sentinel only produces a non-fatal warning and the
command result is still returned; otherwise a fatal error naming the
attempted command is raised. When the final message contains
`end <command>`, the check classifies success regardless of sentinels. -/
theorem check_dismod_command_classification (command stdout stderr : String)
    (log : List String) :
    (logFailed command log = true →
      ((strIn oom_sentinel stdout || strIn oom_sentinel stderr) = true →
        check_dismod_command command stdout stderr log =
          Except.error "Dismod-AT ran out of memory") ∧
      ((strIn oom_sentinel stdout || strIn oom_sentinel stderr) = false →
        (strIn max_iter_sentinel stdout || strIn max_iter_sentinel stderr) = true →
        check_dismod_command command stdout stderr log =
            Except.ok CheckOutcome.warnMaxIter ∧
          run_dismod_completion command stdout stderr log 0 =
            Except.ok (stdout, stderr)) ∧
      ((strIn oom_sentinel stdout || strIn oom_sentinel stderr) = false →
        (strIn max_iter_sentinel stdout || strIn max_iter_sentinel stderr) = false →
        ∃ msg, check_dismod_command command stdout stderr log = Except.error msg ∧
          strIn command msg = true)) ∧
    (logFailed command log = false →
      check_dismod_command command stdout stderr log =
        Except.ok CheckOutcome.success) := by
  constructor
  · intro hfail
    refine ⟨?_, ?_, ?_⟩
    · intro hoom
      rw [check_dismod_command, if_pos hfail, if_pos hoom]
    · intro hoom hmax
      have hc : check_dismod_command command stdout stderr log =
          Except.ok CheckOutcome.warnMaxIter := by
        rw [check_dismod_command, if_pos hfail, if_neg (by simp [hoom]), if_pos hmax]
      refine ⟨hc, ?_⟩
      rw [run_dismod_completion, hc]
      simp
    · intro hoom hmax
      refine ⟨"Dismod-AT failed to complete '" ++ command ++ "' command", ?_, ?_⟩
      · rw [check_dismod_command, if_pos hfail, if_neg (by simp [hoom]),
          if_neg (by simp [hmax])]
      · exact strIn_append "Dismod-AT failed to complete '" command "' command"
  · intro hok
    rw [check_dismod_command, if_neg (by simp [hok])]

/-- Witness for C1: concrete runs with an out-of-memory marker, a
maximum-iterations marker, and a terminal success line. -/
theorem check_dismod_command_classification_witness :
    check_dismod_command "fit" "x std:bad_alloc" "" [] =
      Except.error "Dismod-AT ran out of memory" ∧
    (check_dismod_command "fit" "Maximum Number of Iterations Exceeded" ""
        ["begin fit"] = Except.ok CheckOutcome.warnMaxIter ∧
      run_dismod_completion "fit" "Maximum Number of Iterations Exceeded" ""
        ["begin fit"] 0 =
        Except.ok ("Maximum Number of Iterations Exceeded", "")) ∧
    check_dismod_command "fit" "all well" "" ["begin fit", "end fit"] =
      Except.ok CheckOutcome.success := by
  refine ⟨?_, ?_, ?_⟩
  · exact ((check_dismod_command_classification "fit" "x std:bad_alloc" "" []).1
      (by decide)).1 (by decide)
  · exact ((check_dismod_command_classification "fit"
      "Maximum Number of Iterations Exceeded" "" ["begin fit"]).1
      (by decide)).2.1 (by decide) (by decide)
  · exact (check_dismod_command_classification "fit" "all well" ""
      ["begin fit", "end fit"]).2 (by decide)

/-- Claim C6: a fit with a misaligned initial guess fails before any data
normalization, store write, or external-process event, with the mismatch
named in the error; a simulate with a misaligned fit variable fails after
data normalization but before any external-process event, with the
mismatch named. -/
theorem alignment_checked_before_io (m fitLevel : String) (scaleSetByUser : Bool)
    (simulateCount : Nat) :
    (fit_events (some m) true scaleSetByUser fitLevel =
        ([], some ("Model and initial guess are misaligned: " ++ m ++ ".")) ∧
      strIn m ("Model and initial guess are misaligned: " ++ m ++ ".") = true) ∧
    (simulate_events (some m) true scaleSetByUser simulateCount =
        ([SessionEvent.normalizeData],
          some ("Model and fit var are misaligned: " ++ m ++ ".")) ∧
      ((simulate_events (some m) true scaleSetByUser simulateCount).1.all
        (fun e => !(e.isRunProcess))) = true ∧
      strIn m ("Model and fit var are misaligned: " ++ m ++ ".") = true) := by
  refine ⟨⟨rfl, ?_⟩, ⟨rfl, rfl, ?_⟩⟩
  · exact strIn_append "Model and initial guess are misaligned: " m "."
  · exact strIn_append "Model and fit var are misaligned: " m "."

/-- Claim C10: setting `max_difference` succeeds exactly when given `None`
or a strictly positive number; a non-positive number raises and the stored
value is unchanged. -/
theorem set_max_difference_spec (c : CovariateColumn) (difference : Option ℚ) :
    ((set_max_difference c difference).2 = none ↔
      difference = none ∨ ∃ q, difference = some q ∧ 0 < q) ∧
    (difference = none →
      set_max_difference c difference = ({ c with max_difference := none }, none)) ∧
    (∀ q, difference = some q → 0 < q →
      set_max_difference c difference = ({ c with max_difference := some q }, none)) ∧
    (∀ q, difference = some q → q ≤ 0 →
      set_max_difference c difference = (c, some "max difference must be positive")) := by
  cases difference with
  | none =>
    refine ⟨?_, ?_, ?_, ?_⟩ <;> simp [set_max_difference]
  | some q =>
    by_cases hq : q ≤ 0
    · have hnot : ¬(0 < q) := not_lt.mpr hq
      refine ⟨?_, ?_, ?_, ?_⟩
      · simp [set_max_difference, hq, hnot]
      · intro hc
        exact absurd hc (by simp)
      · intro q' hq' hpos
        injection hq' with he
        rw [← he] at hpos
        exact absurd hpos hnot
      · intro q' hq' _
        simp [set_max_difference, hq]
    · have hpos : 0 < q := not_le.mp hq
      refine ⟨?_, ?_, ?_, ?_⟩
      · simp [set_max_difference, hq, hpos]
      · intro hc
        exact absurd hc (by simp)
      · intro q' hq' _
        injection hq' with he
        subst he
        simp [set_max_difference, hq]
      · intro q' hq' hle
        injection hq' with he
        rw [← he] at hle
        exact absurd hle hq

/-- Witness for C10: setting 3 succeeds and stores 3; setting 0 raises and
leaves the stored value unchanged; setting `None` clears it. -/
theorem set_max_difference_spec_witness :
    set_max_difference { name := "c", reference := none, max_difference := some 7 }
        (some 3) =
      ({ name := "c", reference := none, max_difference := some 3 }, none) ∧
    set_max_difference { name := "c", reference := none, max_difference := some 7 }
        (some 0) =
      ({ name := "c", reference := none, max_difference := some 7 },
        some "max difference must be positive") ∧
    set_max_difference { name := "c", reference := none, max_difference := some 7 }
        none =
      ({ name := "c", reference := none, max_difference := none }, none) := by
  refine ⟨?_, ?_, ?_⟩
  · exact (set_max_difference_spec _ (some 3)).2.2.1 3 rfl (by norm_num)
  · exact (set_max_difference_spec _ (some 0)).2.2.2 0 rfl (by norm_num)
  · exact (set_max_difference_spec _ none).2.1 rfl

/-! ## Prior family lemmas and claim theorems -/

theorem lookup_mem {l : List (String × XF)} {k : String} {v : XF}
    (h : l.lookup k = some v) : (k, v) ∈ l := by
  induction l with
  | nil => simp at h
  | cons p t ih =>
    obtain ⟨k', v'⟩ := p
    rw [List.lookup_cons] at h
    cases hk : (k == k') with
    | true =>
      rw [hk] at h
      have hkk : k = k' := by simpa using hk
      subst hkk
      simp at h
      subst h
      exact List.mem_cons_self _ _
    | false =>
      rw [hk] at h
      exact List.mem_cons_of_mem _ (ih h)

theorem lookup_of_mem_nodup {l : List (String × XF)} (hnd : (l.map Prod.fst).Nodup)
    {k : String} {v : XF} (hm : (k, v) ∈ l) : l.lookup k = some v := by
  induction l with
  | nil => simp at hm
  | cons p t ih =>
    obtain ⟨k', v'⟩ := p
    rw [List.map_cons, List.nodup_cons] at hnd
    rcases List.mem_cons.mp hm with he | ht
    · obtain ⟨he1, he2⟩ := Prod.mk.injEq .. ▸ he
      subst he1
      subst he2
      simp [List.lookup_cons]
    · have hkmem : k ∈ t.map Prod.fst := List.mem_map.mpr ⟨(k, v), ht, rfl⟩
      have hne : ¬(k = k') := fun he => hnd.1 (he ▸ hkmem)
      rw [List.lookup_cons]
      have hbeq : (k == k') = false := by simpa using hne
      rw [hbeq]
      exact ih hnd.2 ht

theorem parameters_keys_nodup (p : Prior) : ((p.parameters).map Prod.fst).Nodup := by
  cases p <;> simp [Prior.parameters]

theorem dictEq_iff {a b : List (String × XF)} (ha : (a.map Prod.fst).Nodup)
    (hb : (b.map Prod.fst).Nodup) :
    dictEq a b = true ↔ ∀ k, a.lookup k = b.lookup k := by
  constructor
  · intro h k
    rw [dictEq, Bool.and_eq_true, List.all_eq_true, List.all_eq_true] at h
    obtain ⟨h1, h2⟩ := h
    cases hak : a.lookup k with
    | some v =>
      have hb' : b.lookup k = some v := by simpa using h1 _ (lookup_mem hak)
      rw [hb']
    | none =>
      cases hbk : b.lookup k with
      | none => rfl
      | some w =>
        have ha' : a.lookup k = some w := by simpa using h2 _ (lookup_mem hbk)
        rw [hak] at ha'
        exact absurd ha' (by simp)
  · intro h
    rw [dictEq, Bool.and_eq_true, List.all_eq_true, List.all_eq_true]
    constructor
    · intro x hx
      obtain ⟨k, v⟩ := x
      have hl : a.lookup k = some v := lookup_of_mem_nodup ha hx
      rw [h k] at hl
      simp [hl]
    · intro x hx
      obtain ⟨k, v⟩ := x
      have hl : b.lookup k = some v := lookup_of_mem_nodup hb hx
      rw [← h k] at hl
      simp [hl]

theorem hashKey_of_lookup_eq {p q : Prior}
    (h : ∀ k, p.parameters.lookup k = q.parameters.lookup k) :
    p.hashKey = q.hashKey := by
  rw [Prior.hashKey, Prior.hashKey]
  apply Finset.ext
  intro x
  obtain ⟨k, v⟩ := x
  simp only [List.mem_toFinset]
  constructor
  · intro hm
    have hl := lookup_of_mem_nodup (parameters_keys_nodup p) hm
    rw [h k] at hl
    exact lookup_mem hl
  · intro hm
    have hl := lookup_of_mem_nodup (parameters_keys_nodup q) hm
    rw [← h k] at hl
    exact lookup_mem hl

/-- Counterexample to C2: two uniform priors with equal parameter dicts
and equal hash keys but different names compare unequal (the name enters
`__eq__`); and a Gaussian and a Laplace prior with different density tags
but equal names and parameters compare equal (the tag is absent from the
overridden `parameters()` dict). -/
theorem prior_structural_equality_counterexample :
    (Prior.uniform (XF.val 0) (XF.val 2) (XF.val 1) (some "a")).parameters =
      (Prior.uniform (XF.val 0) (XF.val 2) (XF.val 1) (some "b")).parameters ∧
    (Prior.uniform (XF.val 0) (XF.val 2) (XF.val 1) (some "a")).hashKey =
      (Prior.uniform (XF.val 0) (XF.val 2) (XF.val 1) (some "b")).hashKey ∧
    priorEq (Prior.uniform (XF.val 0) (XF.val 2) (XF.val 1) (some "a"))
      (Prior.uniform (XF.val 0) (XF.val 2) (XF.val 1) (some "b")) = false ∧
    (Prior.gaussian (XF.val 0) (XF.val 2) (XF.val 1) (XF.val 1) none).density ≠
      (Prior.laplace (XF.val 0) (XF.val 2) (XF.val 1) (XF.val 1) none).density ∧
    priorEq (Prior.gaussian (XF.val 0) (XF.val 2) (XF.val 1) (XF.val 1) none)
      (Prior.laplace (XF.val 0) (XF.val 2) (XF.val 1) (XF.val 1) none) = true := by
  refine ⟨rfl, rfl, by decide, by decide, by decide⟩

/-- Claim C2 as amended: Prior equality is structural over the name and
the `parameters()` dict (two priors are equal iff their names agree and
their parameter dicts agree as key-value maps), and the hash depends on
the parameter dict alone, so equal dicts give equal hashes regardless of
names; the density tag enters neither, since every concrete class
overrides `parameters()` without it. -/
theorem prior_eq_hash_structural (p q : Prior) :
    (priorEq p q = true ↔
      (p.name = q.name ∧ ∀ k, p.parameters.lookup k = q.parameters.lookup k)) ∧
    ((∀ k, p.parameters.lookup k = q.parameters.lookup k) →
      p.hashKey = q.hashKey) := by
  constructor
  · rw [priorEq, Bool.and_eq_true]
    constructor
    · intro h
      exact ⟨by simpa using h.1,
        (dictEq_iff (parameters_keys_nodup p) (parameters_keys_nodup q)).mp h.2⟩
    · intro h
      exact ⟨by simpa using h.1,
        (dictEq_iff (parameters_keys_nodup p) (parameters_keys_nodup q)).mpr h.2⟩
  · exact hashKey_of_lookup_eq

/-- Witness for the amended C2: a Gaussian and a Laplace prior with equal
names and parameters are equal, and uniform priors differing only in name
share a hash key. -/
theorem prior_eq_hash_structural_witness :
    priorEq (Prior.gaussian (XF.val 0) (XF.val 1) (XF.val 0) (XF.val 1) (some "n"))
      (Prior.laplace (XF.val 0) (XF.val 1) (XF.val 0) (XF.val 1) (some "n")) = true ∧
    (Prior.uniform (XF.val 0) (XF.val 1) (XF.val 0) (some "x")).hashKey =
      (Prior.uniform (XF.val 0) (XF.val 1) (XF.val 0) (some "y")).hashKey := by
  constructor
  · exact (prior_eq_hash_structural _ _).1.mpr ⟨rfl, fun _ => rfl⟩
  · exact (prior_eq_hash_structural _ _).2 (fun _ => rfl)

/-- Claim C9: the hash/equality contract is inconsistent about names —
two same-kind priors with equal parameter sets but different names have
equal hash keys while comparing unequal. -/
theorem prior_hash_eq_inconsistent :
    (Prior.gaussian (XF.val 0) (XF.val 3) (XF.val 1) (XF.val 2) (some "x")).density =
      (Prior.gaussian (XF.val 0) (XF.val 3) (XF.val 1) (XF.val 2) (some "y")).density ∧
    (Prior.gaussian (XF.val 0) (XF.val 3) (XF.val 1) (XF.val 2) (some "x")).parameters =
      (Prior.gaussian (XF.val 0) (XF.val 3) (XF.val 1) (XF.val 2) (some "y")).parameters ∧
    (Prior.gaussian (XF.val 0) (XF.val 3) (XF.val 1) (XF.val 2) (some "x")).name ≠
      (Prior.gaussian (XF.val 0) (XF.val 3) (XF.val 1) (XF.val 2) (some "y")).name ∧
    (Prior.gaussian (XF.val 0) (XF.val 3) (XF.val 1) (XF.val 2) (some "x")).hashKey =
      (Prior.gaussian (XF.val 0) (XF.val 3) (XF.val 1) (XF.val 2) (some "y")).hashKey ∧
    priorEq (Prior.gaussian (XF.val 0) (XF.val 3) (XF.val 1) (XF.val 2) (some "x"))
      (Prior.gaussian (XF.val 0) (XF.val 3) (XF.val 1) (XF.val 2) (some "y")) = false := by
  refine ⟨rfl, rfl, by decide, rfl, by decide⟩

/-- Claim C3: every Prior constructor validates its parameters — failing
exactly when `lower > mean`, `mean > upper`, `standard_deviation < 0`, or
`nu < 0` — and the boundary instances behave as stated. -/
theorem prior_construction_validates :
    (∀ m l u nm, exceptOk (UniformPrior_init m l u nm) = (l.leb m && m.leb u)) ∧
    (∀ m s l u nm, exceptOk (GaussianPrior_init m s l u nm) =
      (l.leb m && m.leb u && !(s.ltb (XF.val 0)))) ∧
    (∀ m s l u nm, exceptOk (LaplacePrior_init m s l u nm) =
      (l.leb m && m.leb u && !(s.ltb (XF.val 0)))) ∧
    (∀ m s nu l u nm, exceptOk (StudentsTPrior_init m s nu l u nm) =
      (l.leb m && m.leb u && !(s.ltb (XF.val 0)) && !(nu.ltb (XF.val 0)))) ∧
    (∀ m s e l u nm, exceptOk (LogGaussianPrior_init m s e l u nm) =
      (l.leb m && m.leb u && !(s.ltb (XF.val 0)))) ∧
    (∀ m s e l u nm, exceptOk (LogLaplacePrior_init m s e l u nm) =
      (l.leb m && m.leb u && !(s.ltb (XF.val 0)))) ∧
    (∀ m s nu e l u nm, exceptOk (LogStudentsTPrior_init m s nu e l u nm) =
      (l.leb m && m.leb u && !(s.ltb (XF.val 0)) && !(nu.ltb (XF.val 0)))) ∧
    exceptOk (UniformPrior_init (XF.val 1) (XF.val 0) (XF.val 2)) = true ∧
    exceptOk (UniformPrior_init (XF.val 5) (XF.val 0) (XF.val 2)) = false ∧
    exceptOk (GaussianPrior_init (XF.val 0) (XF.val 0)) = true ∧
    exceptOk (GaussianPrior_init (XF.val 0) (XF.val (-1))) = false := by
  refine ⟨?_, ?_, ?_, ?_, ?_, ?_, ?_, by decide, by decide, by decide, by decide⟩
  · intro m l u nm
    rw [UniformPrior_init, validate_bounds]
    cases h : (l.leb m && m.leb u) <;> simp [h, exceptOk]
  · intro m s l u nm
    rw [GaussianPrior_init, validate_bounds, validate_standard_deviation]
    cases hb : (l.leb m && m.leb u) with
    | false => simp [hb, exceptOk]
    | true => cases hs : s.ltb (XF.val 0) <;> simp [hb, hs, exceptOk]
  · intro m s l u nm
    rw [LaplacePrior_init, validate_bounds, validate_standard_deviation]
    cases hb : (l.leb m && m.leb u) with
    | false => simp [hb, exceptOk]
    | true => cases hs : s.ltb (XF.val 0) <;> simp [hb, hs, exceptOk]
  · intro m s nu l u nm
    rw [StudentsTPrior_init, validate_bounds, validate_standard_deviation, validate_nu]
    cases hb : (l.leb m && m.leb u) with
    | false => simp [hb, exceptOk]
    | true =>
      cases hs : s.ltb (XF.val 0) with
      | true => simp [hb, hs, exceptOk]
      | false => cases hn : nu.ltb (XF.val 0) <;> simp [hb, hs, hn, exceptOk]
  · intro m s e l u nm
    rw [LogGaussianPrior_init, validate_bounds, validate_standard_deviation]
    cases hb : (l.leb m && m.leb u) with
    | false => simp [hb, exceptOk]
    | true => cases hs : s.ltb (XF.val 0) <;> simp [hb, hs, exceptOk]
  · intro m s e l u nm
    rw [LogLaplacePrior_init, validate_bounds, validate_standard_deviation]
    cases hb : (l.leb m && m.leb u) with
    | false => simp [hb, exceptOk]
    | true => cases hs : s.ltb (XF.val 0) <;> simp [hb, hs, exceptOk]
  · intro m s nu e l u nm
    rw [LogStudentsTPrior_init, validate_bounds, validate_standard_deviation, validate_nu]
    cases hb : (l.leb m && m.leb u) with
    | false => simp [hb, exceptOk]
    | true =>
      cases hs : s.ltb (XF.val 0) with
      | true => simp [hb, hs, exceptOk]
      | false => cases hn : nu.ltb (XF.val 0) <;> simp [hb, hs, hn, exceptOk]

/-! ## AgeTimeGrid lemmas and claim theorems -/

theorem grid_keys (ageList timeList : List ℚ) (cols : List String) :
    (mkGridRows ageList timeList cols).map (fun r => (r.age, r.time)) =
      ageList ×ˢ timeList := by
  induction ageList with
  | nil => rfl
  | cons a rest ih =>
    rw [mkGridRows, List.flatMap_cons, List.map_append, List.map_map]
    rw [mkGridRows] at ih
    rw [ih, List.product_cons]
    rfl

theorem grid_length (ageList timeList : List ℚ) (cols : List String) :
    (mkGridRows ageList timeList cols).length = ageList.length * timeList.length := by
  have h := congrArg List.length (grid_keys ageList timeList cols)
  rw [List.length_map, List.length_product] at h
  exact h

/-- Claim C7 (spec-modelled: the AgeTimeGrid implementation file is not in
the snapshot): constructing an AgeTimeGrid from non-empty sequences of
distinct ages and times yields one primary row per (age, time) pair —
|ages| x |times| rows with no duplicate pair — and a 3-row mulstd table,
while a bare scalar for ages or times is a type error. -/
theorem age_time_grid_construction (ageList timeList : List ℚ) (cols : List String)
    (h1 : ageList ≠ []) (h2 : timeList ≠ []) (h3 : ageList.Nodup)
    (h4 : timeList.Nodup) :
    (∃ g, AgeTimeGrid_init (PyInput.seq ageList) (PyInput.seq timeList) cols =
        Except.ok g ∧
      g.grid.length = ageList.length * timeList.length ∧
      g.mulstd.length = 3 ∧
      g.grid.map (fun r => (r.age, r.time)) = ageList ×ˢ timeList ∧
      (g.grid.map (fun r => (r.age, r.time))).Nodup) ∧
    (∀ (q : ℚ) (ts : PyInput) (cs : List String),
      AgeTimeGrid_init (PyInput.scalar q) ts cs =
        Except.error "TypeError: ages and times must each be a sequence") ∧
    (∀ (al : List ℚ) (q : ℚ) (cs : List String),
      AgeTimeGrid_init (PyInput.seq al) (PyInput.scalar q) cs =
        Except.error "TypeError: ages and times must each be a sequence") := by
  have ha : ageList.isEmpty = false := by
    cases ageList with
    | nil => exact absurd rfl h1
    | cons x xs => rfl
  have hb : timeList.isEmpty = false := by
    cases timeList with
    | nil => exact absurd rfl h2
    | cons x xs => rfl
  have hok : AgeTimeGrid_init (PyInput.seq ageList) (PyInput.seq timeList) cols =
      Except.ok { ages := ageList, times := timeList, columns := cols,
                  grid := mkGridRows ageList timeList cols,
                  mulstd := mkMulstd cols } := by
    rw [AgeTimeGrid_init, if_neg (by rw [ha, hb]; simp), if_pos ⟨h3, h4⟩]
  refine ⟨⟨_, hok, grid_length ageList timeList cols, rfl,
      grid_keys ageList timeList cols, ?_⟩,
    fun q ts cs => by cases ts <;> rfl, fun al q cs => rfl⟩
  rw [grid_keys ageList timeList cols]
  exact h3.product h4

/-- Witness for C7: the spec's example grid with three ages and two times
has six primary rows and three mulstd rows. -/
theorem age_time_grid_construction_witness :
    ∃ g, AgeTimeGrid_init (PyInput.seq [0, 1, 10]) (PyInput.seq [2000, 2010])
        ["var_id"] = Except.ok g ∧
      g.grid.length = 6 ∧ g.mulstd.length = 3 := by
  obtain ⟨⟨g, hg, hlen, hmul, _, _⟩, _, _⟩ :=
    age_time_grid_construction [0, 1, 10] [2000, 2010] ["var_id"]
      (by decide) (by decide) (by decide) (by decide)
  exact ⟨g, hg, hlen.trans (by decide), hmul⟩

/-- Claim C8 (spec-modelled, as C7): a range assignment matching zero rows
is a range error, never a silent no-op; a successful range assignment
rewrites exactly the matched rows — each matched row receives the assigned
value, every other row and remaining field of the grid is unchanged — and
succeeds only when at least one row matched. -/
theorem range_assign_spec (g : AgeTimeGrid) (a0 a1 t0 t1 : Option ℚ)
    (value : AssignVal) :
    ((g.grid.all (fun r => !(rowMatches a0 a1 t0 t1 r)) = true) →
      range_assign g a0 a1 t0 t1 value =
        Except.error "Range assignment matched no rows") ∧
    (∀ g', range_assign g a0 a1 t0 t1 value = Except.ok g' →
      (∃ r ∈ g.grid, rowMatches a0 a1 t0 t1 r = true) ∧
      g'.grid.length = g.grid.length ∧
      (∀ i (hi : i < g.grid.length) (hi' : i < g'.grid.length),
        (rowMatches a0 a1 t0 t1 (g.grid.get ⟨i, hi⟩) = true →
          g'.grid.get ⟨i, hi'⟩ = writeRow g.columns value (g.grid.get ⟨i, hi⟩)) ∧
        (rowMatches a0 a1 t0 t1 (g.grid.get ⟨i, hi⟩) = false →
          g'.grid.get ⟨i, hi'⟩ = g.grid.get ⟨i, hi⟩)) ∧
      g'.ages = g.ages ∧ g'.times = g.times ∧ g'.columns = g.columns ∧
      g'.mulstd = g.mulstd) := by
  constructor
  · intro hall
    rw [range_assign, if_pos hall]
  · intro g' h
    have hsplit : g' = { g with grid := assign_rows g a0 a1 t0 t1 value } ∧
        g.grid.all (fun r => !(rowMatches a0 a1 t0 t1 r)) = false := by
      rw [range_assign] at h
      cases hall : g.grid.all (fun r => !(rowMatches a0 a1 t0 t1 r)) with
      | true =>
        rw [if_pos hall] at h
        exact absurd h (by simp)
      | false =>
        rw [if_neg (by simp [hall])] at h
        cases hshape : shapeOk g value with
        | false =>
          rw [if_pos (by rw [hshape]; rfl)] at h
          exact absurd h (by simp)
        | true =>
          rw [if_neg (by rw [hshape]; simp)] at h
          exact ⟨(Except.ok.inj h).symm, rfl⟩
    obtain ⟨hgg, hall⟩ := hsplit
    subst hgg
    refine ⟨?_, ?_, ?_, rfl, rfl, rfl, rfl⟩
    · obtain ⟨r, hr, hnr⟩ := List.all_eq_false.mp hall
      refine ⟨r, hr, ?_⟩
      cases hm : rowMatches a0 a1 t0 t1 r with
      | true => rfl
      | false => exact absurd (by rw [hm]; rfl) hnr
    · show (assign_rows g a0 a1 t0 t1 value).length = g.grid.length
      rw [assign_rows, List.length_map]
    · intro i hi hi'
      have hget : (assign_rows g a0 a1 t0 t1 value).get ⟨i, hi'⟩ =
          (fun r => if rowMatches a0 a1 t0 t1 r then writeRow g.columns value r
            else r) (g.grid.get ⟨i, hi⟩) := by
        simp only [assign_rows, List.get_eq_getElem, List.getElem_map]
      constructor
      · intro hm
        show (assign_rows g a0 a1 t0 t1 value).get ⟨i, hi'⟩ = _
        rw [hget]
        exact if_pos hm
      · intro hm
        have hcond : ¬(rowMatches a0 a1 t0 t1 (g.grid.get ⟨i, hi⟩) = true) := by
          rw [hm]
          exact Bool.false_ne_true
        show (assign_rows g a0 a1 t0 t1 value).get ⟨i, hi'⟩ = _
        rw [hget]
        exact if_neg hcond

/-- Witness for C8 on the spec's example grid: assigning over times 2015
to 2020 matches no breakpoint and raises; assigning over times 2005 to
2015 succeeds with at least one matched row and an unchanged row count. -/
theorem range_assign_spec_witness :
    range_assign sampleGrid none none (some 2015) (some 2020)
        (AssignVal.seqv [Val.num 9]) =
      Except.error "Range assignment matched no rows" ∧
    ∃ g', range_assign sampleGrid none none (some 2005) (some 2015)
        (AssignVal.seqv [Val.num 321]) = Except.ok g' ∧
      g'.grid.length = sampleGrid.grid.length ∧
      (∃ r ∈ sampleGrid.grid, rowMatches none none (some 2005) (some 2015) r = true) := by
  constructor
  · exact (range_assign_spec sampleGrid none none (some 2015) (some 2020)
      (AssignVal.seqv [Val.num 9])).1 (by decide)
  · have h := (range_assign_spec sampleGrid none none (some 2005) (some 2015)
      (AssignVal.seqv [Val.num 321])).2 _ rfl
    exact ⟨_, rfl, h.2.1, h.1⟩

end Cascade
